import Mathlib

/-
  Verification of the finite-state-machine runtime (fsm.c, evtq.c, timer.c).

  Shallow embedding notes:
  * `fsm_events_t` is the event enum of evtq.h.
  * A C `fsm_state_t*` is modelled as a state reference `StateRef` (the
    pointer identity); a separate map `StateRef → fsm_state_t` gives the
    state record a reference points to.  Entry/exit action function
    pointers are modelled as `Option Nat` action identifiers; `fsm_run`
    returns the list of (action id, argument) invocations in order.
  * A C guard `bool (*)(void*)` reads ambient process state (e.g.
    `but_constraint` reads the remaining time of the TID_LIGHT timer), so
    guards are modelled as `E → Bool` over an environment type `E` that is
    passed to `fsm_run`.
  * In fsm.c the FSM context is the pointer to the first row of the
    transition table, and that first row's `currst_p` field doubles as the
    mutable current-state register (`fsm_p->currst_p` is both read as the
    current state and assigned on a transition).  `FsmCtx` therefore keeps
    the head row separate from the remaining rows; the table is
    `head :: rest` and the current state is `head.currst`.
  * The event queue (evtq.c) and the timer registry (timer.c) are modelled
    sequentially: the mutex/condition plumbing serialises the operations,
    and each operation's effect between lock and unlock is the function
    given here.  `die()` (process abort) is modelled as `Except.error`.
-/

/-- Event enum from evtq.h (`fsm_events_t`). -/
inductive fsm_events_t where
  | E_BAD
  | E_LIGHT
  | E_BLINK
  | E_INIT
  | E_RED
  | E_GREEN
  | E_YELLOW
  | E_BUTTON
  | E_DONE
  | E_TIMER
  | E_LAST
deriving DecidableEq

/-- A state reference: the identity of a C `fsm_state_t*` pointer. -/
abbrev StateRef := Nat

/-- `fsm_state_t` from fsm.h: a name and optional entry/exit action
function pointers (action ids; `none` models a NULL pointer). -/
structure fsm_state_t where
  name : String
  entry_action : Option Nat
  exit_action : Option Nat

/-- `fsm_trans_t` from fsm.h: one transition-table row
`(currst_p, event, guard, nextst_p)`.  The guard is an optional predicate
over the ambient environment `E` (NULL guard = `none`). -/
structure fsm_trans_t (E : Type) where
  currst : StateRef
  event : fsm_events_t
  guard : Option (E → Bool)
  nextst : StateRef

/-- The FSM context of fsm.c: `fsm_p` points at the first table row, whose
`currst` field is the mutable current-state register; `rest` holds the
remaining rows up to the NULL terminator. -/
structure FsmCtx (E : Type) where
  head : fsm_trans_t E
  rest : List (fsm_trans_t E)

/-- All rows of the table, in order. -/
def FsmCtx.rows {E : Type} (ctx : FsmCtx E) : List (fsm_trans_t E) :=
  ctx.head :: ctx.rest

/-- The current state: fsm.c reads it from `fsm_p->currst_p`. -/
def FsmCtx.current {E : Type} (ctx : FsmCtx E) : StateRef :=
  ctx.head.currst

/-- `next_state` from fsm.c lines 60-77: scan rows in order, match on
`t_p->currst_p == fsm_p->currst_p && t_p->event == evt_id`, return the
matched row's `nextst_p`; NULL (none) when no row matches. -/
def next_state {E : Type} : List (fsm_trans_t E) → StateRef → fsm_events_t → Option StateRef
  | [], _, _ => none
  | t :: rest, curr, evt =>
    if t.currst = curr ∧ t.event = evt then some t.nextst
    else next_state rest curr evt

/-- The first matching row itself (the same scan as `next_state`, kept as a
whole row so claims can speak about the matched row's guard). -/
def first_match {E : Type} : List (fsm_trans_t E) → StateRef → fsm_events_t → Option (fsm_trans_t E)
  | [], _, _ => none
  | t :: rest, curr, evt =>
    if t.currst = curr ∧ t.event = evt then some t
    else first_match rest curr evt

/-- The guard test actually performed by fsm.c line 107:
`fsm_p->guard && (false == fsm_p->guard(fsm_p))` — note that `fsm_p` is
the table-head row, so this consults the HEAD row's guard field, not the
matched row's. -/
def head_guard_denies {E : Type} (env : E) (ctx : FsmCtx E) : Bool :=
  match ctx.head.guard with
  | some g => !(g env)
  | none => false

/-- Exit-action invocation of fsm.c lines 116-118: if the state's
`exit_action` is non-NULL it is called once with the state pointer. -/
def exit_acts (states : StateRef → fsm_state_t) (s : StateRef) : List (Nat × StateRef) :=
  match (states s).exit_action with
  | some a => [(a, s)]
  | none => []

/-- Entry-action invocation of fsm.c lines 124-126. -/
def entry_acts (states : StateRef → fsm_state_t) (s : StateRef) : List (Nat × StateRef) :=
  match (states s).entry_action with
  | some a => [(a, s)]
  | none => []

/-- Result of one `fsm_run` call: the C return value, the context after
the call, and the (action id, state argument) invocations in order. -/
structure RunResult (E : Type) where
  ret : Int
  ctx : FsmCtx E
  acts : List (Nat × StateRef)

/-- `fsm_run` from fsm.c lines 97-134:
find the next state; if none return -1; if the head row's guard is present
and returns false return 1; otherwise run the current state's exit action,
assign `fsm_p->currst_p = nextst_p`, run the new state's entry action, and
return 0. -/
def fsm_run {E : Type} (env : E) (states : StateRef → fsm_state_t)
    (ctx : FsmCtx E) (evt : fsm_events_t) : RunResult E :=
  match next_state ctx.rows ctx.head.currst evt with
  | none => ⟨-1, ctx, []⟩
  | some n =>
    if head_guard_denies env ctx then ⟨1, ctx, []⟩
    else
      ⟨0, ⟨{ ctx.head with currst := n }, ctx.rest⟩,
        exit_acts states ctx.head.currst ++ entry_acts states n⟩

/- ------------------- concrete FSM1 data from fsm_defs.h ------------------- -/

/-- Guard environment of `but_constraint` (fsm_defs.h lines 177-185): the
remaining milliseconds of the TID_LIGHT timer and the global `t_but`. -/
abbrev ButtonEnv := Nat × Nat

/-- `but_constraint` from fsm_defs.h: true iff the remaining LIGHT-timer
time is greater than `t_but`. -/
def but_constraint (e : ButtonEnv) : Bool :=
  decide (e.1 > e.2)

/-- State references for FSM1's global states (pointer identities). -/
def s_stoplight_init : StateRef := 0

def s_red : StateRef := 1

def s_green : StateRef := 2

def s_yellow : StateRef := 3

def s_green_but : StateRef := 4

def s_done : StateRef := 5

/-- Action ids for FSM1's action functions (one per C function pointer). -/
def stoplight_init_enter : Nat := 10

def red_enter : Nat := 11

def green_enter : Nat := 12

def yellow_enter : Nat := 13

def green_but_enter : Nat := 14

def act_done : Nat := 15

def act_exit : Nat := 16

/-- The state records behind each FSM1 state reference (fsm_defs.h lines
191-201). -/
def fsm1_states : StateRef → fsm_state_t := fun s =>
  if s = s_stoplight_init then ⟨"S:INIT", some stoplight_init_enter, some act_exit⟩
  else if s = s_red then ⟨"S:RED", some red_enter, some act_exit⟩
  else if s = s_green then ⟨"S:GREEN", some green_enter, some act_exit⟩
  else if s = s_yellow then ⟨"S:YELLOW", some yellow_enter, some act_exit⟩
  else if s = s_green_but then ⟨"S:GREEN_BUT", some green_but_enter, some act_exit⟩
  else if s = s_done then ⟨"S:DONE", some act_done, none⟩
  else ⟨"", none, none⟩

/-- The guarded E_BUTTON row of FSM1 (fsm_defs.h line 209). -/
def fsm1_button_row : fsm_trans_t ButtonEnv :=
  ⟨s_green, .E_BUTTON, some but_constraint, s_green_but⟩

/-- FSM1 from fsm_defs.h lines 202-223, rows in source order; the head row
is the context row whose `currst` field is the current-state register. -/
def FSM1 : FsmCtx ButtonEnv :=
  ⟨⟨s_stoplight_init, .E_INIT, none, s_green⟩,
   [⟨s_green, .E_LIGHT, none, s_yellow⟩,
    ⟨s_green, .E_DONE, none, s_done⟩,
    fsm1_button_row,
    ⟨s_yellow, .E_LIGHT, none, s_red⟩,
    ⟨s_yellow, .E_DONE, none, s_done⟩,
    ⟨s_red, .E_LIGHT, none, s_green⟩,
    ⟨s_red, .E_DONE, none, s_done⟩,
    ⟨s_green_but, .E_LIGHT, none, s_yellow⟩]⟩

/-- FSM1 after it has reached S:GREEN: same table, head row's
current-state register now holds `s_green`. -/
def fsm1_in_green : FsmCtx ButtonEnv :=
  ⟨{ FSM1.head with currst := s_green }, FSM1.rest⟩

/-- States for the C5 failing input: state 0 and state 2 both carry entry
and exit actions. -/
def c5_states : StateRef → fsm_state_t := fun s =>
  if s = 0 then ⟨"A", some 20, some 21⟩
  else if s = 2 then ⟨"C", some 22, some 23⟩
  else ⟨"B", none, none⟩

/-- A guardless row matched by the C5 failing input. -/
def c5_matched_row : fsm_trans_t Unit := ⟨0, .E_RED, none, 2⟩

/-- C5 failing input: a table whose head row carries a guard that returns
false, with a guardless second row matching (state 0, E_RED). -/
def c5_ctx : FsmCtx Unit :=
  ⟨⟨0, .E_LIGHT, some (fun _ => false), 1⟩, [c5_matched_row]⟩

/- ------------------------- event queue (evtq.c) ------------------------- -/

/-- `evtq_t` from evtq.h, sequentially: the item list plus the `len`
counter the C code maintains alongside it. -/
structure evtq_t where
  len : Nat
  items : List fsm_events_t

/-- `evtq_create` (evtq.c lines 22-32): an empty queue, len 0. -/
def evtq_create : evtq_t := ⟨0, []⟩

/-- `evtq_push` (evtq.c lines 66-84): add the event at the tail of the
list and increment `len`. -/
def evtq_push (q : evtq_t) (id : fsm_events_t) : evtq_t :=
  ⟨q.len + 1, q.items ++ [id]⟩

/-- `evtq_pop` (evtq.c lines 100-128), sequentially: while `len == 0` the
caller blocks (here: `none`, no value is produced); otherwise remove the
list head, decrement `len`, and hand the head event out. -/
def evtq_pop (q : evtq_t) : Option (fsm_events_t × evtq_t) :=
  if q.len = 0 then none
  else
    match q.items with
    | [] => none
    | e :: rest => some (e, ⟨q.len - 1, rest⟩)

/-- Pop repeatedly (at most `fuel` times) until the queue blocks. -/
def evtq_drain_go : Nat → evtq_t → List fsm_events_t
  | 0, _ => []
  | fuel + 1, q =>
    match evtq_pop q with
    | none => []
    | some (e, q') => e :: evtq_drain_go fuel q'

/-- The full dequeue sequence a consumer observes: pop until the queue
blocks.  Each successful pop decrements `len`, so `len` pops suffice. -/
def evtq_drain (q : evtq_t) : List fsm_events_t :=
  evtq_drain_go q.len q

/- ------------------------- timers (timer.c) ------------------------- -/

/-- `fsmtimer_t` from timer.h: registry entry with the caller id, the
event broadcast on expiry, the current period `tick_ms` and the saved
`old_tick_ms`.  The kernel fd is plumbing and is not part of the model. -/
structure fsmtimer_t where
  timerid : Nat
  evtid : fsm_events_t
  tick_ms : Nat
  old_tick_ms : Nat
deriving DecidableEq

/-- The timer registry: the mutex-protected list of timer.c, in insertion
order (`nl_list_add_tail`). -/
abbrev timer_list_t := List fsmtimer_t

/-- `find_timer_by_id` (timer.c lines 47-60): iterate the whole list and
keep overwriting `found_p` on every id match — so the LAST matching entry
is returned. -/
def find_timer_by_id (reg : timer_list_t) (timerid : Nat) : Option fsmtimer_t :=
  reg.foldl (fun found t => if t.timerid = timerid then some t else found) none

/-- `create_timer` (timer.c lines 102-130): die("timer exists") on a
duplicate id; otherwise record the timer at the list tail with
`tick_ms = 0` and the configured event.  The C code never initialises
`old_tick_ms` (malloc garbage), so it is an explicit `uninit_old`
parameter. -/
def create_timer (reg : timer_list_t) (timerid : Nat) (evtid : fsm_events_t)
    (uninit_old : Nat) : Except String timer_list_t :=
  if (find_timer_by_id reg timerid).isSome then
    Except.error ("timer exists")
  else
    Except.ok (reg ++ [⟨timerid, evtid, 0, uninit_old⟩])

/-- The `struct itimerspec` handed to `timerfd_settime`. -/
structure itimerspec where
  it_value_sec : Nat
  it_value_nsec : Nat
  it_interval_sec : Nat
  it_interval_nsec : Nat
deriving DecidableEq

/-- `set_timer_p` (timer.c lines 147-186): save
`old_tick_ms ← tick_ms`, assign `tick_ms`, and compute the itimerspec
armed via `timerfd_settime` — `sec = tick_ms ? tick_ms/1000 : 0`,
`nsec = tick_ms ? (tick_ms%1000)*1e6 : 0`, with `it_value` and
`it_interval` both set to (sec, nsec). -/
def set_timer_p (timer : fsmtimer_t) (tick_ms : Nat) : fsmtimer_t × itimerspec :=
  let sec := if tick_ms ≠ 0 then tick_ms / 1000 else 0
  let nsec := if tick_ms ≠ 0 then (tick_ms % 1000) * 1000000 else 0
  ({ timer with old_tick_ms := timer.tick_ms, tick_ms := tick_ms },
   ⟨sec, nsec, sec, nsec⟩)

/-- Write back a timer through the pointer `find_timer_by_id` returned:
replace the LAST entry whose id matches (the entry the C code mutates in
place); a registry with no match is returned unchanged. -/
def upd_found : timer_list_t → Nat → fsmtimer_t → timer_list_t
  | [], _, _ => []
  | t :: rest, timerid, t' =>
    if t.timerid = timerid ∧ find_timer_by_id rest timerid = none then
      t' :: rest
    else
      t :: upd_found rest timerid t'

/-- `set_timer` (timer.c lines 195-202): look the timer up, die on an
unknown id (the C diagnostic is "stop_timer unknown timer"), otherwise
apply `set_timer_p` to the found timer. -/
def set_timer (reg : timer_list_t) (timerid : Nat) (tick_ms : Nat) :
    Except String (timer_list_t × itimerspec) :=
  match find_timer_by_id reg timerid with
  | none => Except.error ("stop_timer unknown timer")
  | some t =>
    Except.ok (upd_found reg timerid (set_timer_p t tick_ms).1, (set_timer_p t tick_ms).2)

/-- `get_timer` (timer.c lines 208-227): die on an unknown id; otherwise
convert the kernel-reported remaining time to milliseconds
(`sec*1000 + nsec/1e6`).  The kernel's `timerfd_gettime` answer is an
input (`kernel_sec`, `kernel_nsec`). -/
def get_timer (reg : timer_list_t) (timerid : Nat) (kernel_sec : Nat) (kernel_nsec : Nat) :
    Except String Nat :=
  match find_timer_by_id reg timerid with
  | none => Except.error ("get_timer unknown timer")
  | some _ => Except.ok (kernel_sec * 1000 + kernel_nsec / 1000000)

/-- `toggle_timer` (timer.c lines 233-251): unknown id → print and return
-1 (non-fatal, registry untouched); armed timer → `set_timer_p(timer, 0)`;
disarmed timer → `set_timer_p(timer, old_tick_ms)`; return 0. -/
def toggle_timer (reg : timer_list_t) (timerid : Nat) : Int × timer_list_t :=
  match find_timer_by_id reg timerid with
  | none => (-1, reg)
  | some t =>
    if t.tick_ms ≠ 0 then
      (0, upd_found reg timerid (set_timer_p t 0).1)
    else
      (0, upd_found reg timerid (set_timer_p t t.old_tick_ms).1)

/-- The timer value one `toggle_timer` writes back through the found
pointer: `set_timer_p` saves the old period, and the new period is 0 for
an armed timer and `old_tick_ms` for a disarmed one. -/
def toggled (t : fsmtimer_t) : fsmtimer_t :=
  { t with old_tick_ms := t.tick_ms,
           tick_ms := if t.tick_ms ≠ 0 then 0 else t.old_tick_ms }

/- =========================== theorems =========================== -/

/- ---- FSM interpreter (fsm.c) ---- -/

/-- C3: for every FSM context and event, `fsm_run` returns exactly 0 when
a transition is taken, exactly 1 when the guard check denies the matched
transition, and exactly -1 when no table row matches (current state,
event); no other value is ever returned.  (The guard check performed by
the code is `head_guard_denies`, fsm.c line 107.) -/
theorem fsm_run_ret_codes_c3 {E : Type} (env : E) (states : StateRef → fsm_state_t)
    (ctx : FsmCtx E) (evt : fsm_events_t) :
    ((fsm_run env states ctx evt).ret = 0 ∨ (fsm_run env states ctx evt).ret = 1
      ∨ (fsm_run env states ctx evt).ret = -1)
    ∧ ((fsm_run env states ctx evt).ret = -1 ↔ next_state ctx.rows ctx.current evt = none)
    ∧ ((fsm_run env states ctx evt).ret = 1 ↔
        (next_state ctx.rows ctx.current evt ≠ none ∧ head_guard_denies env ctx = true))
    ∧ ((fsm_run env states ctx evt).ret = 0 ↔
        (next_state ctx.rows ctx.current evt ≠ none ∧ head_guard_denies env ctx = false)) := by
  unfold fsm_run FsmCtx.current
  rcases hn : next_state ctx.rows ctx.head.currst evt with _ | n
  · simp
  · cases hg : head_guard_denies env ctx
    · simp [hg]
    · simp [hg]

/-- C2 (amended): `fsm_run` leaves the rest of the table and the head
row's event, guard and to-state fields unchanged; the head row's
from-state field is the context's current-state register and is the only
datum mutated, and it changes only when the call returns 0
(Transitioned). -/
theorem fsm_run_frame_c2 {E : Type} (env : E) (states : StateRef → fsm_state_t)
    (ctx : FsmCtx E) (evt : fsm_events_t) :
    (fsm_run env states ctx evt).ctx.rest = ctx.rest
    ∧ (fsm_run env states ctx evt).ctx.head.event = ctx.head.event
    ∧ (fsm_run env states ctx evt).ctx.head.guard = ctx.head.guard
    ∧ (fsm_run env states ctx evt).ctx.head.nextst = ctx.head.nextst
    ∧ ((fsm_run env states ctx evt).ctx.head.currst = ctx.head.currst
        ∨ (fsm_run env states ctx evt).ret = 0) := by
  unfold fsm_run
  rcases hn : next_state ctx.rows ctx.head.currst evt with _ | n
  · simp
  · cases hg : head_guard_denies env ctx
    · simp [hg]
    · simp [hg]

/-- C2 counterexample: the transition-table rows are NOT all immutable as
stated.  On FSM1's E_INIT transition `fsm_run` writes the head row's
from-state field (fsm.c line 121 `fsm_p->currst_p = nextst_p`), because
that field doubles as the current-state register. -/
theorem fsm_rows_mutated_c2_cex :
    FSM1.head.currst = s_stoplight_init
    ∧ (fsm_run ((0, 0) : ButtonEnv) fsm1_states FSM1 .E_INIT).ctx.head.currst = s_green
    ∧ ¬((fsm_run ((0, 0) : ButtonEnv) fsm1_states FSM1 .E_INIT).ctx.head.currst
        = FSM1.head.currst) :=
  ⟨rfl, rfl, by decide⟩

/-- C4: when no table row matches (current state, event), `fsm_run`
returns -1 (NoMatch), leaves the context (and hence the current state)
unchanged, and invokes no entry or exit action. -/
theorem fsm_run_nomatch_c4 {E : Type} (env : E) (states : StateRef → fsm_state_t)
    (ctx : FsmCtx E) (evt : fsm_events_t)
    (h : next_state ctx.rows ctx.current evt = none) :
    fsm_run env states ctx evt = ⟨-1, ctx, []⟩ := by
  unfold FsmCtx.current at h
  simp [fsm_run, h]

/-- C4 witness: FSM1 sitting in S:GREEN has no row for E_RED, so the run
returns -1 with nothing mutated and no actions fired. -/
theorem fsm_run_nomatch_c4_witness :
    fsm_run ((0, 0) : ButtonEnv) fsm1_states fsm1_in_green .E_RED
      = ⟨-1, fsm1_in_green, []⟩ :=
  fsm_run_nomatch_c4 (0, 0) fsm1_states fsm1_in_green .E_RED rfl

/-- C1 (code bug): with FSM1 in S:GREEN and event E_BUTTON, the first
matching row is the guarded E_BUTTON row and its guard `but_constraint`
returns false (remaining time 0 ≤ t_but 100), yet `fsm_run` returns 0
(Transitioned), moves the current state to S:GREEN_BUT and fires the
exit/entry actions — because fsm.c line 107 consults `fsm_p->guard`, the
table-head row's guard (NULL in FSM1), instead of the matched row's. -/
theorem fsm_run_guard_bug_c1 :
    first_match fsm1_in_green.rows fsm1_in_green.current .E_BUTTON = some fsm1_button_row
    ∧ fsm1_button_row.guard = some but_constraint
    ∧ but_constraint (0, 100) = false
    ∧ (fsm_run ((0, 100) : ButtonEnv) fsm1_states fsm1_in_green .E_BUTTON).ret = 0
    ∧ (fsm_run ((0, 100) : ButtonEnv) fsm1_states fsm1_in_green .E_BUTTON).ctx.current
        = s_green_but
    ∧ (fsm_run ((0, 100) : ButtonEnv) fsm1_states fsm1_in_green .E_BUTTON).acts
        = [(act_exit, s_green), (green_but_enter, s_green_but)] :=
  ⟨rfl, rfl, by decide, rfl, rfl, rfl⟩

/-- C5 (code bug): a context whose head row carries a guard returning
false, receiving an event whose first matching row has NO guard: the
claim requires exit/entry to fire and 0 (Transitioned) to be returned,
but `fsm_run` returns 1 (GuardFailed), mutates nothing and fires no
action, because fsm.c line 107 evaluates the head row's guard rather
than the matched row's. -/
theorem fsm_run_guard_bug_c5 :
    first_match c5_ctx.rows c5_ctx.current .E_RED = some c5_matched_row
    ∧ c5_matched_row.guard = none
    ∧ (c5_states 0).exit_action = some 21
    ∧ (c5_states 2).entry_action = some 22
    ∧ (fsm_run () c5_states c5_ctx .E_RED).ret = 1
    ∧ (fsm_run () c5_states c5_ctx .E_RED).ctx.current = c5_ctx.current
    ∧ (fsm_run () c5_states c5_ctx .E_RED).acts = [] :=
  ⟨rfl, rfl, rfl, rfl, rfl, rfl, rfl⟩

/- ---- event queue (evtq.c) ---- -/

/-- Popping a queue whose `len` field is the successor of the tail length
removes exactly the head element. -/
theorem evtq_pop_cons (n : Nat) (e : fsm_events_t) (xs : List fsm_events_t) :
    evtq_pop ⟨n + 1, e :: xs⟩ = some (e, ⟨n, xs⟩) := by
  simp [evtq_pop]

/-- Draining a queue whose `len` matches its item count yields exactly the
item list. -/
theorem evtq_drain_items : ∀ xs : List fsm_events_t, evtq_drain ⟨xs.length, xs⟩ = xs := by
  intro xs
  induction xs with
  | nil => rfl
  | cons x xs ih =>
    unfold evtq_drain at *
    simp only [List.length_cons, evtq_drain_go, evtq_pop_cons]
    exact congrArg (x :: ·) ih

/-- Pushing a list of events onto a length-consistent queue appends them
in order and keeps `len` equal to the item count. -/
theorem evtq_push_foldl : ∀ es xs : List fsm_events_t,
    List.foldl evtq_push ⟨xs.length, xs⟩ es = ⟨(xs ++ es).length, xs ++ es⟩ := by
  intro es
  induction es with
  | nil => intro xs; simp
  | cons e es ih =>
    intro xs
    simp only [List.foldl_cons]
    have hp : evtq_push ⟨xs.length, xs⟩ e = ⟨(xs ++ [e]).length, xs ++ [e]⟩ := by
      simp [evtq_push]
    rw [hp, ih (xs ++ [e])]
    simp

/-- C6: the queue is FIFO in the sequential embedding — enqueue appends at
the tail and bumps the count, and the dequeue sequence obtained by popping
until the queue blocks equals the enqueued sequence exactly: nothing is
fabricated, dropped, reordered or duplicated. -/
theorem evtq_fifo_c6 (es : List fsm_events_t) :
    evtq_drain (List.foldl evtq_push evtq_create es) = es
    ∧ (∀ (q : evtq_t) (id : fsm_events_t),
        (evtq_push q id).items = q.items ++ [id] ∧ (evtq_push q id).len = q.len + 1)
    ∧ (∀ xs : List fsm_events_t, evtq_drain ⟨xs.length, xs⟩ = xs) := by
  refine ⟨?_, ?_, evtq_drain_items⟩
  · have h0 : (evtq_create : evtq_t) = ⟨([] : List fsm_events_t).length, []⟩ := rfl
    rw [h0, evtq_push_foldl es []]
    simpa using evtq_drain_items es
  · intro q id
    exact ⟨rfl, rfl⟩

/- ---- timer service (timer.c) ---- -/

/-- The `find_timer_by_id` fold with an arbitrary accumulator: the result
is the fold from `none`, with the accumulator surviving only when no
entry matches. -/
theorem find_timer_aux (timerid : Nat) :
    ∀ (reg : timer_list_t) (acc : Option fsmtimer_t),
      List.foldl (fun found t => if t.timerid = timerid then some t else found) acc reg
        = match List.foldl (fun found t => if t.timerid = timerid then some t else found) none reg with
          | some u => some u
          | none => acc := by
  intro reg
  induction reg with
  | nil => intro acc; rfl
  | cons t rest ih =>
    intro acc
    simp only [List.foldl_cons]
    rw [ih (if t.timerid = timerid then some t else acc),
        ih (if t.timerid = timerid then some t else none)]
    cases hfr : List.foldl (fun found t => if t.timerid = timerid then some t else found) none rest with
    | none =>
      by_cases htid : t.timerid = timerid
      · simp [htid]
      · simp [htid]
    | some u => rfl

/-- Cons characterisation of the C loop: a later (rest) match wins over a
match at the front, because the loop keeps overwriting `found_p`. -/
theorem find_timer_cons (t : fsmtimer_t) (rest : timer_list_t) (timerid : Nat) :
    find_timer_by_id (t :: rest) timerid
      = match find_timer_by_id rest timerid with
        | some u => some u
        | none => if t.timerid = timerid then some t else none := by
  unfold find_timer_by_id
  simp only [List.foldl_cons]
  exact find_timer_aux timerid rest (if t.timerid = timerid then some t else none)

/-- A timer returned by `find_timer_by_id` carries the looked-up id. -/
theorem find_timer_id_eq (timerid : Nat) :
    ∀ (reg : timer_list_t) (t : fsmtimer_t),
      find_timer_by_id reg timerid = some t → t.timerid = timerid := by
  intro reg
  induction reg with
  | nil => intro t h; simp [find_timer_by_id] at h
  | cons u rest ih =>
    intro t h
    rw [find_timer_cons] at h
    cases hfr : find_timer_by_id rest timerid with
    | some v =>
      rw [hfr] at h
      cases h
      exact ih t hfr
    | none =>
      rw [hfr] at h
      by_cases hu : u.timerid = timerid
      · rw [if_pos hu] at h; cases h; exact hu
      · rw [if_neg hu] at h; cases h

/-- Writing a timer back through the pointer `find_timer_by_id` returned
makes the next lookup return the written value. -/
theorem find_timer_upd (timerid : Nat) (t' : fsmtimer_t) (ht : t'.timerid = timerid) :
    ∀ reg : timer_list_t, (find_timer_by_id reg timerid).isSome = true →
      find_timer_by_id (upd_found reg timerid t') timerid = some t' := by
  intro reg
  induction reg with
  | nil => intro h; simp [find_timer_by_id] at h
  | cons t rest ih =>
    intro h
    rw [find_timer_cons] at h
    by_cases hrest : find_timer_by_id rest timerid = none
    · rw [hrest] at h
      by_cases htid : t.timerid = timerid
      · unfold upd_found
        rw [if_pos ⟨htid, hrest⟩]
        rw [find_timer_cons, hrest, if_pos ht]
      · rw [if_neg htid] at h; simp at h
    · have hsome : (find_timer_by_id rest timerid).isSome = true := by
        cases hfr : find_timer_by_id rest timerid with
        | none => exact absurd hfr hrest
        | some u => rfl
      unfold upd_found
      rw [if_neg (fun hc => hrest hc.2)]
      rw [find_timer_cons, ih hsome]

/-- An entry appended at the tail with the looked-up id is what
`find_timer_by_id` returns (the loop keeps the last match). -/
theorem find_timer_append_last (reg : timer_list_t) (t : fsmtimer_t) (timerid : Nat)
    (ht : t.timerid = timerid) :
    find_timer_by_id (reg ++ [t]) timerid = some t := by
  unfold find_timer_by_id
  rw [List.foldl_append]
  simp [ht]

/-- One `toggle_timer` on a found timer returns 0 and writes back the
`toggled` value. -/
theorem toggle_timer_found (reg : timer_list_t) (timerid : Nat) (t : fsmtimer_t)
    (h : find_timer_by_id reg timerid = some t) :
    toggle_timer reg timerid = (0, upd_found reg timerid (toggled t)) := by
  unfold toggle_timer
  rw [h]
  by_cases harm : t.tick_ms = 0
  · simp [harm, set_timer_p, toggled]
  · simp [harm, set_timer_p, toggled]

/-- Toggling twice restores the current period. -/
theorem toggled_tick_involution (t : fsmtimer_t) :
    (toggled (toggled t)).tick_ms = t.tick_ms := by
  unfold toggled
  by_cases harm : t.tick_ms = 0
  · by_cases hold : t.old_tick_ms = 0
    · simp [harm, hold]
    · simp [harm, hold]
  · simp [harm]

/-- C7: `create_timer` on an id already present in the registry fails
with the duplicate diagnostic (die("timer exists"), a process abort);
on a fresh id it appends the timer disarmed (`tick_ms = 0`) with the
configured event id and returns ok, and the new timer is then found in
the registry. -/
theorem create_timer_spec_c7 (reg : timer_list_t) (timerid : Nat) (evtid : fsm_events_t)
    (uninit_old : Nat) :
    ((find_timer_by_id reg timerid).isSome = true →
      create_timer reg timerid evtid uninit_old = Except.error ("timer exists"))
    ∧ (find_timer_by_id reg timerid = none →
        create_timer reg timerid evtid uninit_old
          = Except.ok (reg ++ [⟨timerid, evtid, 0, uninit_old⟩])
        ∧ find_timer_by_id (reg ++ [⟨timerid, evtid, 0, uninit_old⟩]) timerid
          = some ⟨timerid, evtid, 0, uninit_old⟩) := by
  constructor
  · intro h; simp [create_timer, h]
  · intro h
    constructor
    · simp [create_timer, h]
    · exact find_timer_append_last reg _ timerid rfl

/-- C7 witness: duplicate create on id 3 errors; fresh create on id 3
records the disarmed timer with the configured event. -/
theorem create_timer_spec_c7_witness :
    create_timer [⟨3, fsm_events_t.E_LIGHT, 0, 0⟩] 3 fsm_events_t.E_BLINK 0
      = Except.error ("timer exists")
    ∧ (create_timer [] 3 fsm_events_t.E_BLINK 0
        = Except.ok ([] ++ [⟨3, fsm_events_t.E_BLINK, 0, 0⟩])
      ∧ find_timer_by_id ([] ++ [⟨3, fsm_events_t.E_BLINK, 0, 0⟩]) 3
        = some ⟨3, fsm_events_t.E_BLINK, 0, 0⟩) :=
  ⟨(create_timer_spec_c7 [⟨3, fsm_events_t.E_LIGHT, 0, 0⟩] 3 fsm_events_t.E_BLINK 0).1
     (by decide),
   (create_timer_spec_c7 [] 3 fsm_events_t.E_BLINK 0).2 (by decide)⟩

/-- C8: for a timer present in the registry, `set_timer` saves
`old_tick_ms ← tick_ms` and assigns the new period, writing the timer
back where it was found; the kernel itimerspec disarms the timer when
the period is 0 and otherwise arms it periodic with initial expiry and
repeat interval both equal to the period in milliseconds. -/
theorem set_timer_spec_c8 (reg : timer_list_t) (timerid ms : Nat) (t : fsmtimer_t)
    (h : find_timer_by_id reg timerid = some t) :
    set_timer reg timerid ms
      = Except.ok (upd_found reg timerid { t with old_tick_ms := t.tick_ms, tick_ms := ms },
          (set_timer_p t ms).2)
    ∧ find_timer_by_id
        (upd_found reg timerid { t with old_tick_ms := t.tick_ms, tick_ms := ms }) timerid
        = some { t with old_tick_ms := t.tick_ms, tick_ms := ms }
    ∧ (ms = 0 → (set_timer_p t ms).2 = ⟨0, 0, 0, 0⟩)
    ∧ (ms ≠ 0 →
        (set_timer_p t ms).2.it_interval_sec = (set_timer_p t ms).2.it_value_sec
        ∧ (set_timer_p t ms).2.it_interval_nsec = (set_timer_p t ms).2.it_value_nsec
        ∧ (set_timer_p t ms).2.it_value_sec * 1000
            + (set_timer_p t ms).2.it_value_nsec / 1000000 = ms) := by
  have htid : t.timerid = timerid := find_timer_id_eq timerid reg t h
  refine ⟨?_, ?_, ?_, ?_⟩
  · simp [set_timer, h, set_timer_p]
  · exact find_timer_upd timerid { t with old_tick_ms := t.tick_ms, tick_ms := ms }
        htid reg (by rw [h]; rfl)
  · intro h0; simp [set_timer_p, h0]
  · intro hne
    refine ⟨by simp [set_timer_p], by simp [set_timer_p], ?_⟩
    simp only [set_timer_p, if_pos hne]
    omega

/-- C8 witness: setting timer 2 from period 8 to 2500 saves 8 as the old
period, stores 2500, and arms value = interval = 2.5 s; the armed value
converts back to 2500 ms. -/
theorem set_timer_spec_c8_witness :
    set_timer [⟨2, fsm_events_t.E_BLINK, 8, 1⟩] 2 2500
      = Except.ok
          (upd_found [⟨2, fsm_events_t.E_BLINK, 8, 1⟩] 2 ⟨2, fsm_events_t.E_BLINK, 2500, 8⟩,
           (set_timer_p ⟨2, fsm_events_t.E_BLINK, 8, 1⟩ 2500).2)
    ∧ (set_timer_p (⟨2, fsm_events_t.E_BLINK, 8, 1⟩ : fsmtimer_t) 2500).2.it_value_sec * 1000
        + (set_timer_p (⟨2, fsm_events_t.E_BLINK, 8, 1⟩ : fsmtimer_t) 2500).2.it_value_nsec / 1000000
        = 2500 := by
  have hmain := set_timer_spec_c8 [⟨2, fsm_events_t.E_BLINK, 8, 1⟩] 2 2500
      ⟨2, fsm_events_t.E_BLINK, 8, 1⟩ (by decide)
  exact ⟨hmain.1, (hmain.2.2.2 (by decide)).2.2⟩

/-- C9: one toggle of an armed registered timer disarms it (period 0,
old period saved); one toggle of a disarmed timer restores
`old_tick_ms`; two toggles in succession leave the current period equal
to what it was before the first toggle. -/
theorem toggle_timer_spec_c9 (reg : timer_list_t) (timerid : Nat) (t : fsmtimer_t)
    (h : find_timer_by_id reg timerid = some t) :
    (toggle_timer reg timerid).1 = 0
    ∧ (t.tick_ms ≠ 0 → find_timer_by_id (toggle_timer reg timerid).2 timerid
        = some { t with old_tick_ms := t.tick_ms, tick_ms := 0 })
    ∧ (t.tick_ms = 0 → find_timer_by_id (toggle_timer reg timerid).2 timerid
        = some { t with old_tick_ms := t.tick_ms, tick_ms := t.old_tick_ms })
    ∧ (find_timer_by_id (toggle_timer (toggle_timer reg timerid).2 timerid).2 timerid).map
        fsmtimer_t.tick_ms = some t.tick_ms := by
  have htid : t.timerid = timerid := find_timer_id_eq timerid reg t h
  have h1 : toggle_timer reg timerid = (0, upd_found reg timerid (toggled t)) :=
    toggle_timer_found reg timerid t h
  have hf1 : find_timer_by_id (toggle_timer reg timerid).2 timerid = some (toggled t) := by
    rw [h1]
    exact find_timer_upd timerid (toggled t) htid reg (by rw [h]; rfl)
  have h2 : toggle_timer (toggle_timer reg timerid).2 timerid
      = (0, upd_found (toggle_timer reg timerid).2 timerid (toggled (toggled t))) :=
    toggle_timer_found _ timerid (toggled t) hf1
  have hf2 : find_timer_by_id (toggle_timer (toggle_timer reg timerid).2 timerid).2 timerid
      = some (toggled (toggled t)) := by
    rw [h2]
    exact find_timer_upd timerid (toggled (toggled t)) htid _ (by rw [hf1]; rfl)
  refine ⟨by rw [h1], ?_, ?_, ?_⟩
  · intro harm
    rw [hf1]
    unfold toggled
    simp [harm]
  · intro hdis
    rw [hf1]
    unfold toggled
    simp [hdis]
  · rw [hf2]
    simp [toggled_tick_involution]

/-- C9 witness: timer 7 armed at 5 ms with saved period 3: one toggle
stores (period 0, old 5); a second toggle brings the period back to 5. -/
theorem toggle_timer_spec_c9_witness :
    find_timer_by_id (toggle_timer [⟨7, fsm_events_t.E_LIGHT, 5, 3⟩] 7).2 7
      = some ⟨7, fsm_events_t.E_LIGHT, 0, 5⟩
    ∧ (find_timer_by_id
        (toggle_timer (toggle_timer [⟨7, fsm_events_t.E_LIGHT, 5, 3⟩] 7).2 7).2 7).map
        fsmtimer_t.tick_ms = some 5 := by
  have hmain := toggle_timer_spec_c9 [⟨7, fsm_events_t.E_LIGHT, 5, 3⟩] 7
      ⟨7, fsm_events_t.E_LIGHT, 5, 3⟩ (by decide)
  exact ⟨hmain.2.1 (by decide), hmain.2.2.2⟩

/-- C10: on an id absent from the registry, `toggle_timer` returns -1 and
leaves the registry (hence every timer's fields) unchanged, while
`set_timer` and `get_timer` abort the process (die) with their unknown-
timer diagnostics. -/
theorem timer_unknown_id_c10 (reg : timer_list_t) (timerid : Nat)
    (h : find_timer_by_id reg timerid = none) :
    toggle_timer reg timerid = (-1, reg)
    ∧ (∀ ms : Nat, set_timer reg timerid ms = Except.error ("stop_timer unknown timer"))
    ∧ (∀ ksec knsec : Nat,
        get_timer reg timerid ksec knsec = Except.error ("get_timer unknown timer")) := by
  refine ⟨?_, ?_, ?_⟩
  · simp [toggle_timer, h]
  · intro ms; simp [set_timer, h]
  · intro ksec knsec; simp [get_timer, h]

/-- C10 witness: id 2 is not in a registry holding only id 1. -/
theorem timer_unknown_id_c10_witness :
    toggle_timer [⟨1, fsm_events_t.E_LIGHT, 5, 0⟩] 2 = (-1, [⟨1, fsm_events_t.E_LIGHT, 5, 0⟩])
    ∧ set_timer [⟨1, fsm_events_t.E_LIGHT, 5, 0⟩] 2 100
        = Except.error ("stop_timer unknown timer")
    ∧ get_timer [⟨1, fsm_events_t.E_LIGHT, 5, 0⟩] 2 0 0
        = Except.error ("get_timer unknown timer") := by
  have hmain := timer_unknown_id_c10 [⟨1, fsm_events_t.E_LIGHT, 5, 0⟩] 2 (by decide)
  exact ⟨hmain.1, hmain.2.1 100, hmain.2.2 0 0⟩
